import Mathlib

/-!
Verification of the poll_engine protocol core (src/main.rs) against its
natural-language specification.

The development shallowly embeds the protocol core: the CRC-32 checksum
used for request frames, the `IMercury230` counter (`new`, `processing`,
`consumption`, `communicate`), the `SerialChannel` transport
(`reconf`, `send`, `read`) and the `CounterList::processing` polling
loop.  Machine bytes are `Nat`s (values 0..255 where relevant); Rust
panics (`unwrap` on `Err`/`None`, out-of-bounds indexing) are modelled
as `Except.error` outcomes; the environment of a transport exchange
(the results of the underlying serial-port calls) is passed in
explicitly as a `TransportEnv`.
-/

namespace PollEngine

/-! ### CRC-32 (IEEE), as computed by `crc::crc32::checksum_ieee` -/

/-- One bit-step of the reflected CRC-32 computation: shift right and,
when the low bit was set, fold in the reflected polynomial 0xEDB88320. -/
def crc32Round (c : Nat) : Nat :=
  if c % 2 = 1 then (c / 2) ^^^ 0xEDB88320 else c / 2

/-- Feed one byte into a running CRC-32 state: xor the byte into the low
8 bits and run 8 bit-steps. -/
def crc32Byte (crc b : Nat) : Nat :=
  crc32Round (crc32Round (crc32Round (crc32Round
    (crc32Round (crc32Round (crc32Round (crc32Round (crc ^^^ (b % 256)))))))))

/-- The CRC-32 (IEEE / Ethernet polynomial) of a byte sequence: initial
state 0xFFFFFFFF, one `crc32Byte` per input byte, final complement.
This is the value `crc::crc32::checksum_ieee` computes in the source
(main.rs:210). -/
def crc32Ieee (data : List Nat) : Nat :=
  (data.foldl crc32Byte 0xFFFFFFFF) ^^^ 0xFFFFFFFF

/-! ### Panics and transport errors -/

/-- Observable ways the Rust source can panic: indexing a `Vec` out of
bounds, or `unwrap` on an `Err`/`None`. -/
inductive Panic where
  | indexOutOfBounds
  | unwrapErr
deriving DecidableEq, Repr

/-- Errors the underlying serial-port calls may report to the source
(the source itself `unwrap`s all of them). -/
inductive IOErr where
  | timedOut
  | other
deriving DecidableEq, Repr

/-! ### The response decoder `IMercury230::processing` -/

/-- Semantics of `byteorder::ReadBytesExt::read_f64::<BigEndian>` on a
cursor over `bytes`: an f64 read consumes exactly 8 bytes; with fewer
than 8 bytes available the read fails (UnexpectedEof).  On success the
result is the raw 64-bit pattern assembled big-endian; the floating
interpretation is carried symbolically by `ConsumptionVal.decoded`. -/
def readF64BigEndianBits (bytes : List Nat) : Option Nat :=
  if 8 ≤ bytes.length then
    some ((bytes.take 8).foldl (fun acc b => acc * 256 + b % 256) 0)
  else none

/-- Value of the `_consumption : f64` field of `IMercury230`.  The source
stores either the initial literal `0.0` (main.rs:183) or, in the `(5,0)`
branch of `processing`, `f64::from_bits(bits) / 1000.0` where `bits` is
the big-endian reading of the reordered response bytes (main.rs:227-228).
We keep the bits symbolic, so no floating-point arithmetic is needed. -/
inductive ConsumptionVal where
  | zero
  | decoded (bits : Nat)
deriving DecidableEq, Repr

/-- State of one `IMercury230` counter (struct fields of main.rs:169-176). -/
structure IMercury230 where
  consumptionVal : ConsumptionVal
  serialNo : Option String
  deviceName : Option String
  guid : String
  address : Nat
deriving DecidableEq, Repr

/-- Constructor `IMercury230::new` (main.rs:180-189): consumption 0.0,
serial and name unset, empty guid, address 0. -/
def IMercury230.new : IMercury230 where
  consumptionVal := ConsumptionVal.zero
  serialNo := none
  deviceName := none
  guid := ""
  address := 0

/-- Method `IMercury230::processing` (main.rs:222-236).  Dispatches on
`(request[2], request[3])`; in the `(5, 0)` case it reads the tariff
from `request[4]`, builds a 4-byte cursor `[response[4], response[5],
response[2], response[3]]` and `unwrap`s a big-endian f64 read from it;
any out-of-range index is an `indexOutOfBounds` panic and a failed read
is an `unwrapErr` panic.  Every other dispatch pair is a no-op. -/
def IMercury230.processing (s : IMercury230) (request response : List Nat) :
    Except Panic IMercury230 :=
  match request.get? 2, request.get? 3 with
  | some f, some p =>
    if f = 5 ∧ p = 0 then
      match request.get? 4 with
      | none => Except.error Panic.indexOutOfBounds
      | some _tariff =>
        match response.get? 4, response.get? 5, response.get? 2, response.get? 3 with
        | some b4, some b5, some b2, some b3 =>
          match readF64BigEndianBits [b4, b5, b2, b3] with
          | none => Except.error Panic.unwrapErr
          | some bits =>
            Except.ok { s with consumptionVal := ConsumptionVal.decoded bits }
        | _, _, _, _ => Except.error Panic.indexOutOfBounds
    else Except.ok s
  | _, _ => Except.error Panic.indexOutOfBounds

/-- Method `IMercury230::consumption` (main.rs:239-241): returns the
`_consumption` field directly (a plain f64, not an optional). -/
def IMercury230.consumption (s : IMercury230) : ConsumptionVal :=
  s.consumptionVal

/-- The result of `consumption()` seen through the spec's claimed
`optional Reading` return type: the source's return type is the bare
`IConsumption = f64`, so every call yields a present value. -/
def IMercury230.consumptionAsOptional (s : IMercury230) : Option ConsumptionVal :=
  some s.consumption

/-! ### The serial transport `SerialChannel` -/

/-- An opaque open serial-port handle (the source's
`Rc<RefCell<SerialPort>>`; no observable state is needed here). -/
inductive PortHandle where
  | handle
deriving DecidableEq, Repr

/-- Outcomes of the underlying serial-port calls during one exchange.
These are the environment's inputs: the source `unwrap`s each of them.
`crcGarbage` stands for the four bytes the source appends to the request
frame via `Vec::from_raw_parts(my_crc as *mut u8, 4, 4)` (main.rs:211):
that cast treats the CRC value as a memory address, so the bytes are
undefined and are supplied by the environment here. -/
structure TransportEnv where
  openResult : Except IOErr PortHandle
  configureResult : Except IOErr Unit
  setTimeoutResult : Except IOErr Unit
  writeResult : Except IOErr Nat
  readResult : Except IOErr (List Nat)
  crcGarbage : List Nat
deriving Repr

/-- State of `SerialChannel` (main.rs:95-100); the `_child` list is not
consulted by any modelled operation. -/
structure SerialChannel where
  port : Option PortHandle
  portName : String
  baudRate : Nat
deriving DecidableEq, Repr

/-- Constructor `SerialChannel::new` (main.rs:103-110): no port open,
name "COM1", 9600 baud. -/
def SerialChannel.new : SerialChannel where
  port := none
  portName := "COM1"
  baudRate := 9600

/-- Method `SerialChannel::reconf` (main.rs:112-130): `serial::open`,
`configure` and `set_timeout` are each `unwrap`ed, so any failure is a
panic; on success the port handle is stored. -/
def SerialChannel.reconf (s : SerialChannel) (env : TransportEnv) :
    Except Panic SerialChannel :=
  match env.openResult with
  | Except.error _ => Except.error Panic.unwrapErr
  | Except.ok h =>
    match env.configureResult with
    | Except.error _ => Except.error Panic.unwrapErr
    | Except.ok _ =>
      match env.setTimeoutResult with
      | Except.error _ => Except.error Panic.unwrapErr
      | Except.ok _ => Except.ok { s with port := some h }

/-- Method `SerialChannel::send` (main.rs:132-136): with no open port it
does nothing; otherwise `write` is `unwrap`ed (the written count is
discarded). -/
def SerialChannel.send (s : SerialChannel) (env : TransportEnv)
    (_data : List Nat) : Except Panic Unit :=
  match s.port with
  | none => Except.ok ()
  | some _ =>
    match env.writeResult with
    | Except.error _ => Except.error Panic.unwrapErr
    | Except.ok _ => Except.ok ()

/-- The receive buffer `(0..255).collect()` of `SerialChannel::read`
(main.rs:139): the 255 bytes 0, 1, ..., 254. -/
def initBuffer : List Nat :=
  List.range 255

/-- Method `SerialChannel::read` (main.rs:138-146).  With no open port
the untouched initialization buffer is returned.  With an open port the
underlying `read` is `unwrap`ed: an `Err` outcome is a panic, and a
successful outcome delivering `data` (at most the 255-byte buffer is
filled) is truncated to exactly the bytes read. -/
def SerialChannel.read (s : SerialChannel) (portRead : Except IOErr (List Nat)) :
    Except Panic (List Nat) :=
  match s.port with
  | none => Except.ok initBuffer
  | some _ =>
    match portRead with
    | Except.error _ => Except.error Panic.unwrapErr
    | Except.ok data => Except.ok (data.take 255)

/-! ### One exchange: `IMercury230::communicate` -/

/-- Method `IMercury230::communicate` (main.rs:200-219): reconfigure the
parent channel, build the request `[address, 5, 0, 1]` plus the four
undefined checksum bytes, send it, read the response, and hand both to
`processing`.  Any panic in a step aborts the exchange (and, in the
source, unwinds the whole process). -/
def IMercury230.communicate (dev : IMercury230) (ch : SerialChannel)
    (env : TransportEnv) : Except Panic (IMercury230 × SerialChannel) :=
  match SerialChannel.reconf ch env with
  | Except.error e => Except.error e
  | Except.ok ch' =>
    let frame := [dev.address, 5, 0, 1] ++ env.crcGarbage
    match SerialChannel.send ch' env frame with
    | Except.error e => Except.error e
    | Except.ok _ =>
      match SerialChannel.read ch' env.readResult with
      | Except.error e => Except.error e
      | Except.ok response =>
        match IMercury230.processing dev frame response with
        | Except.error e => Except.error e
        | Except.ok dev' => Except.ok (dev', ch')

/-! ### The polling loop `CounterList::processing` -/

/-- One slot of the `CounterList`: the counter together with whether its
`RefCell` is currently borrowed (`try_borrow_mut` fails) when the pass
visits it. -/
structure Slot where
  busy : Bool
  dev : IMercury230
deriving DecidableEq, Repr

/-- Prepend an untouched or updated slot onto the result of polling the
remaining slots, propagating a panic unchanged. -/
def consSlot (s : Slot) :
    Except Panic (List Slot × SerialChannel) →
      Except Panic (List Slot × SerialChannel)
  | Except.ok (ss, c) => Except.ok (s :: ss, c)
  | Except.error e => Except.error e

/-- Method `CounterList::processing` (main.rs:160-166): visit the slots
in order; a busy slot (failed `try_borrow_mut`) is skipped, otherwise
`communicate` runs with the environment of the `k`-th exchange.  A panic
inside `communicate` unwinds past the loop, so it aborts the whole pass.
The second component records the indices of the slots for which
`communicate` was invoked (up to the panic point). -/
def CounterList.processing (env : Nat → TransportEnv) :
    SerialChannel → Nat → List Slot →
      Except Panic (List Slot × SerialChannel) × List Nat
  | ch, _, [] => (Except.ok ([], ch), [])
  | ch, k, slot :: rest =>
    if slot.busy then
      let r := CounterList.processing env ch (k + 1) rest
      (consSlot slot r.1, r.2)
    else
      match IMercury230.communicate slot.dev ch (env k) with
      | Except.error e => (Except.error e, [k])
      | Except.ok (dev', ch') =>
        let r := CounterList.processing env ch' (k + 1) rest
        (consSlot { slot with dev := dev' } r.1, k :: r.2)

/-! ### The intended frame codec, per the specification

The source assembles the request payload `[address, 05, 00, 01]` and
computes `crc32::checksum_ieee` over it (main.rs:209-210), but then
serializes the checksum with `Vec::from_raw_parts(my_crc as *mut u8, 4, 4)`
(main.rs:211) — undefined behavior that reads four bytes from the memory
address equal to the CRC value.  The two definitions below are therefore
modelled from the spec rather than from the source. -/

/-- Little-endian serialization of a 32-bit checksum value as 4 bytes
(the spec leaves the byte order to the implementation, requiring only
internal consistency between build and verify). -/
def crcBytesLE (c : Nat) : List Nat :=
  [c % 256, c / 256 % 256, c / 2 ^ 16 % 256, c / 2 ^ 24 % 256]

/-- Modelled from the spec: `build_request(address, function_code, param)`
assembles `[address, function_code, param_hi, param_lo]`, computes the
CRC-32 (IEEE) over those four bytes and appends the checksum as 4 bytes;
the source's checksum serialization (main.rs:211) is undefined behavior,
so the safe little-endian serialization required by the spec is used. -/
def build_request (address fc hi lo : Nat) : List Nat :=
  let payload := [address, fc, hi, lo]
  payload ++ crcBytesLE (crc32Ieee payload)

/-- Modelled from the spec: `verify(frame)` recomputes the checksum over
the non-checksum bytes of an 8-byte frame and compares it with the
trailing 4 bytes; no such check exists in the source (a gap the spec
itself flags). -/
def verify (frame : List Nat) : Bool :=
  match frame with
  | [a, fc, hi, lo, c0, c1, c2, c3] =>
    decide ([c0, c1, c2, c3] = crcBytesLE (crc32Ieee [a, fc, hi, lo]))
  | _ => false

/-! ### Concrete fixtures -/

/-- A channel whose port is open (for exercising the read path). -/
def chOpen : SerialChannel where
  port := some PortHandle.handle
  portName := "COM1"
  baudRate := 9600

/-- An exchange environment in which every transport call succeeds. -/
def envAllOk : TransportEnv where
  openResult := Except.ok PortHandle.handle
  configureResult := Except.ok ()
  setTimeoutResult := Except.ok ()
  writeResult := Except.ok 8
  readResult := Except.ok [0, 0, 0, 0, 63, 240]
  crcGarbage := [0, 0, 0, 0]

/-- An exchange environment in which `serial::open` fails (for example,
the configured port "COM1" does not exist on the host). -/
def envOpenFail : TransportEnv where
  openResult := Except.error IOErr.other
  configureResult := Except.ok ()
  setTimeoutResult := Except.ok ()
  writeResult := Except.ok 8
  readResult := Except.ok []
  crcGarbage := [0, 0, 0, 0]

set_option maxRecDepth 10000

/-! ### Theorems -/

/-- C1: For a (5,0) consumption request, the spec's decoding scenario —
response bytes at offsets 2-5 equal to [0x00, 0x00, 0x3F, 0xF0] — does
not succeed with consumption 0.001 kWh: the source builds a 4-byte
cursor from the reordered response bytes and `unwrap`s an 8-byte
big-endian f64 read from it, which always fails, so `processing` panics
instead of storing a reading. -/
theorem processing_consumption_scenario_panics :
    IMercury230.processing IMercury230.new [0, 0, 5, 0, 1] [0, 0, 0, 0, 63, 240] =
      Except.error Panic.unwrapErr := rfl

/-- C2: A (5,0) consumption request with a response shorter than 6 bytes
does not yield a `MalformedResponse` result: the source indexes the
response out of bounds and panics (here at the empty response). -/
theorem processing_short_response_panics_out_of_bounds :
    IMercury230.processing IMercury230.new [0, 0, 5, 0, 1] [] =
      Except.error Panic.indexOutOfBounds := rfl

/-- C3: The consumption request frame the spec intends for device
address 1: the payload [1, 5, 0, 1] followed by the 4 bytes of its
CRC-32 (IEEE) checksum 0xE8344A04, 8 bytes in all.  This evaluates the
spec-modelled `build_request` and the source's checksum computation
(`crc32::checksum_ieee`); the source's own serialization of the checksum
into frame bytes is undefined behavior (main.rs:211). -/
theorem build_request_address_one_frame :
    build_request 1 5 0 1 = [1, 5, 0, 1, 4, 74, 52, 232] ∧
      (build_request 1 5 0 1).length = 8 ∧
      crc32Ieee [1, 5, 0, 1] = 0xE8344A04 := by
  refine ⟨by decide, rfl, by decide⟩

/-- C4: A transport-layer failure is not confined to the failing
device's poll cycle: with two attached devices and `serial::open`
failing, the polling pass aborts with a panic (the `unwrap` in
`SerialChannel::reconf`), the second device is never visited (the
exchange log stops at index 0), and no `Ok` outcome is produced. -/
theorem poll_all_transport_failure_aborts_process :
    CounterList.processing (fun _ => envOpenFail) SerialChannel.new 0
        [⟨false, IMercury230.new⟩, ⟨false, IMercury230.new⟩] =
      (Except.error Panic.unwrapErr, [0]) := rfl

/-- C5: On the spec-modelled frame codec, `build_request` is
deterministic (it is a pure function, so identical inputs yield
identical frames definitionally) and `verify` accepts every built
frame.  The source itself serializes the checksum through an
undefined-behavior pointer cast and has no `verify` at all. -/
theorem build_request_deterministic_and_verifies (address fc hi lo : Nat) :
    verify (build_request address fc hi lo) = true ∧
      build_request address fc hi lo = build_request address fc hi lo := by
  refine ⟨?_, rfl⟩
  simp [verify, build_request, crcBytesLE]

/-- C6: For every request whose bytes 2 and 3 exist and are not the pair
(5, 0), `processing` is a no-op and not an error: it returns the state
unchanged. -/
theorem processing_unrecognized_pair_noop (s : IMercury230)
    (request response : List Nat) (f p : Nat)
    (h2 : request.get? 2 = some f) (h3 : request.get? 3 = some p)
    (hnot : ¬(f = 5 ∧ p = 0)) :
    IMercury230.processing s request response = Except.ok s := by
  unfold IMercury230.processing
  rw [h2, h3]
  simp [hnot]

/-- Witness for C6: the request [0, 0, 1, 2] carries the pair (1, 2) at
bytes 2 and 3, and `processing` on a fresh counter leaves it unchanged. -/
theorem processing_unrecognized_pair_noop_witness :
    (([0, 0, 1, 2] : List Nat).get? 2 = some 1 ∧
      ([0, 0, 1, 2] : List Nat).get? 3 = some 2 ∧
      ¬((1 : Nat) = 5 ∧ (2 : Nat) = 0)) ∧
    IMercury230.processing IMercury230.new [0, 0, 1, 2] [] =
      Except.ok IMercury230.new :=
  ⟨⟨rfl, rfl, by decide⟩,
    processing_unrecognized_pair_noop IMercury230.new [0, 0, 1, 2] [] 1 2
      rfl rfl (by decide)⟩

/-- Unfolding equation for a polling pass visiting a busy slot. -/
theorem processing_cons_busy (env : Nat → TransportEnv) (ch : SerialChannel)
    (k : Nat) (slot : Slot) (rest : List Slot) (hb : slot.busy = true) :
    CounterList.processing env ch k (slot :: rest) =
      (consSlot slot (CounterList.processing env ch (k + 1) rest).1,
        (CounterList.processing env ch (k + 1) rest).2) := by
  simp [CounterList.processing, hb]

/-- Unfolding equation for a polling pass whose exchange with a free
slot panics. -/
theorem processing_cons_fail (env : Nat → TransportEnv) (ch : SerialChannel)
    (k : Nat) (slot : Slot) (rest : List Slot) (hb : slot.busy = false)
    (e : Panic)
    (hc : IMercury230.communicate slot.dev ch (env k) = Except.error e) :
    CounterList.processing env ch k (slot :: rest) = (Except.error e, [k]) := by
  simp [CounterList.processing, hb, hc]

/-- Unfolding equation for a polling pass whose exchange with a free
slot succeeds. -/
theorem processing_cons_ok (env : Nat → TransportEnv) (ch : SerialChannel)
    (k : Nat) (slot : Slot) (rest : List Slot) (hb : slot.busy = false)
    (dev' : IMercury230) (ch' : SerialChannel)
    (hc : IMercury230.communicate slot.dev ch (env k) = Except.ok (dev', ch')) :
    CounterList.processing env ch k (slot :: rest) =
      (consSlot { slot with dev := dev' }
          (CounterList.processing env ch' (k + 1) rest).1,
        k :: (CounterList.processing env ch' (k + 1) rest).2) := by
  simp [CounterList.processing, hb, hc]

/-- Inversion for `consSlot`: a successful combined outcome comes from a
successful outcome on the remaining slots, with the visited slot
prepended. -/
theorem consSlot_eq_ok (s : Slot) (r : Except Panic (List Slot × SerialChannel))
    (out : List Slot) (c : SerialChannel)
    (h : consSlot s r = Except.ok (out, c)) :
    ∃ ss, r = Except.ok (ss, c) ∧ out = s :: ss := by
  cases r with
  | error e => simp [consSlot] at h
  | ok pr =>
    obtain ⟨ss, c'⟩ := pr
    simp only [consSlot] at h
    injection h with h
    injection h with h1 h2
    exact ⟨ss, by rw [h2], by rw [← h1]⟩

/-- Every index recorded in the exchange log of `CounterList.processing`
started at position `k` is at least `k`. -/
theorem processing_log_lower_bound (env : Nat → TransportEnv) :
    ∀ (slots : List Slot) (ch : SerialChannel) (k j : Nat),
      j ∈ (CounterList.processing env ch k slots).2 → k ≤ j := by
  intro slots
  induction slots with
  | nil =>
    intro ch k j hj
    simp [CounterList.processing] at hj
  | cons slot rest ih =>
    intro ch k j hj
    cases hb : slot.busy with
    | true =>
      rw [processing_cons_busy env ch k slot rest hb] at hj
      exact Nat.le_of_succ_le (ih ch (k + 1) j hj)
    | false =>
      cases hc : IMercury230.communicate slot.dev ch (env k) with
      | error e =>
        rw [processing_cons_fail env ch k slot rest hb e hc] at hj
        simp at hj
        omega
      | ok pr =>
        obtain ⟨dev', ch'⟩ := pr
        rw [processing_cons_ok env ch k slot rest hb dev' ch' hc] at hj
        rcases List.mem_cons.mp hj with hj | hj
        · omega
        · exact Nat.le_of_succ_le (ih ch' (k + 1) j hj)

/-- Auxiliary form of the skip-if-busy property, generalized over the
starting index of the pass. -/
theorem poll_all_skips_busy_aux (env : Nat → TransportEnv) :
    ∀ (slots : List Slot) (ch : SerialChannel) (k i : Nat) (s : Slot),
      slots.get? i = some s → s.busy = true →
      (k + i ∉ (CounterList.processing env ch k slots).2 ∧
        ∀ out c, (CounterList.processing env ch k slots).1 = Except.ok (out, c) →
          out.get? i = some s) := by
  intro slots
  induction slots with
  | nil =>
    intro ch k i s hget hbusy
    simp at hget
  | cons slot rest ih =>
    intro ch k i s hget hbusy
    cases i with
    | zero =>
      have hslot : slot = s := by simpa using hget
      subst hslot
      constructor
      · intro hmem
        rw [processing_cons_busy env ch k slot rest hbusy] at hmem
        have := processing_log_lower_bound env rest ch (k + 1) (k + 0) hmem
        omega
      · intro out c hout
        rw [processing_cons_busy env ch k slot rest hbusy] at hout
        obtain ⟨ss, hr, hcons⟩ := consSlot_eq_ok slot _ out c hout
        rw [hcons]
        rfl
    | succ i' =>
      have hget' : rest.get? i' = some s := hget
      cases hb : slot.busy with
      | true =>
        have hih := ih ch (k + 1) i' s hget' hbusy
        constructor
        · intro hmem
          rw [processing_cons_busy env ch k slot rest hb] at hmem
          have heq : k + (i' + 1) = (k + 1) + i' := by omega
          rw [heq] at hmem
          exact hih.1 hmem
        · intro out c hout
          rw [processing_cons_busy env ch k slot rest hb] at hout
          obtain ⟨ss, hr, hcons⟩ := consSlot_eq_ok slot _ out c hout
          rw [hcons]
          exact hih.2 ss c hr
      | false =>
        cases hc : IMercury230.communicate slot.dev ch (env k) with
        | error e =>
          constructor
          · intro hmem
            rw [processing_cons_fail env ch k slot rest hb e hc] at hmem
            simp at hmem
          · intro out c hout
            rw [processing_cons_fail env ch k slot rest hb e hc] at hout
            simp at hout
        | ok pr =>
          obtain ⟨dev', ch'⟩ := pr
          have hih := ih ch' (k + 1) i' s hget' hbusy
          constructor
          · intro hmem
            rw [processing_cons_ok env ch k slot rest hb dev' ch' hc] at hmem
            rcases List.mem_cons.mp hmem with hmem | hmem
            · omega
            · have heq : k + (i' + 1) = (k + 1) + i' := by omega
              rw [heq] at hmem
              exact hih.1 hmem
          · intro out c hout
            rw [processing_cons_ok env ch k slot rest hb dev' ch' hc] at hout
            obtain ⟨ss, hr, hcons⟩ :=
              consSlot_eq_ok { slot with dev := dev' } _ out c hout
            rw [hcons]
            exact hih.2 ss c hr

/-- C7: During one polling pass, a slot whose counter is busy (its
`try_borrow_mut` fails) when the pass visits it is skipped: its index
never enters the exchange log — no transport call is attempted for it —
and, whenever the pass completes, its slot (busy flag and cached
reading) is unchanged in the output. -/
theorem poll_all_skips_busy (env : Nat → TransportEnv) (ch : SerialChannel)
    (slots : List Slot) (i : Nat) (s : Slot)
    (hget : slots.get? i = some s) (hbusy : s.busy = true) :
    i ∉ (CounterList.processing env ch 0 slots).2 ∧
      ∀ out c, (CounterList.processing env ch 0 slots).1 = Except.ok (out, c) →
        out.get? i = some s := by
  have h := poll_all_skips_busy_aux env slots ch 0 i s hget hbusy
  simpa using h

/-- Witness for C7: a single busy counter is skipped by the pass — the
exchange log is empty and the slot survives unchanged. -/
theorem poll_all_skips_busy_witness :
    (([⟨true, IMercury230.new⟩] : List Slot).get? 0 =
        some ⟨true, IMercury230.new⟩ ∧
      (⟨true, IMercury230.new⟩ : Slot).busy = true) ∧
    (0 ∉ (CounterList.processing (fun _ => envAllOk) SerialChannel.new 0
        [⟨true, IMercury230.new⟩]).2 ∧
      ∀ out c,
        (CounterList.processing (fun _ => envAllOk) SerialChannel.new 0
            [⟨true, IMercury230.new⟩]).1 = Except.ok (out, c) →
          out.get? 0 = some ⟨true, IMercury230.new⟩) :=
  ⟨⟨rfl, rfl⟩,
    poll_all_skips_busy (fun _ => envAllOk) SerialChannel.new
      [⟨true, IMercury230.new⟩] 0 ⟨true, IMercury230.new⟩ rfl rfl⟩

/-- C8: With an open port, whenever the underlying port read completes
with `data` — by the spec's transport contract, a timeout delivers
whatever was read so far, possibly nothing — `SerialChannel.read`
returns exactly those bytes without error, truncated to the 255-byte
buffer, so the result never exceeds 255 bytes and a zero-length result
is returned as a valid (non-error) outcome. -/
theorem receive_bounded_and_total_on_success (s : SerialChannel)
    (h : PortHandle) (hport : s.port = some h) (data : List Nat) :
    SerialChannel.read s (Except.ok data) = Except.ok (data.take 255) ∧
      (data.take 255).length ≤ 255 ∧
      SerialChannel.read s (Except.ok []) = Except.ok [] := by
  refine ⟨?_, ?_, ?_⟩
  · simp [SerialChannel.read, hport]
  · simp [List.length_take]
  · simp [SerialChannel.read, hport]

/-- Witness for C8: on a channel with an open port, a 3-byte port read
comes back verbatim and an empty read comes back empty, with no error. -/
theorem receive_bounded_and_total_on_success_witness :
    chOpen.port = some PortHandle.handle ∧
    (SerialChannel.read chOpen (Except.ok [7, 8, 9]) =
        Except.ok (([7, 8, 9] : List Nat).take 255) ∧
      (([7, 8, 9] : List Nat).take 255).length ≤ 255 ∧
      SerialChannel.read chOpen (Except.ok []) = Except.ok []) :=
  ⟨rfl, receive_bounded_and_total_on_success chOpen PortHandle.handle rfl [7, 8, 9]⟩

/-- Counterexample for C9: `consumption()` on a freshly constructed
counter (which has never decoded a reading) does not return an absent
value — the source's return type is the bare `IConsumption = f64` and
the call yields the present value 0.0. -/
theorem consumption_fresh_device_is_present_zero :
    IMercury230.consumptionAsOptional IMercury230.new =
        some ConsumptionVal.zero ∧
      IMercury230.consumptionAsOptional IMercury230.new ≠ none :=
  ⟨rfl, by simp [IMercury230.consumptionAsOptional]⟩

/-- C9 (amended): `consumption()` returns the cached consumption value
as a plain f64 — there is no absent case — and on a counter that has
never decoded a reading it returns the initial value 0.0. -/
theorem consumption_returns_cached_value (s : IMercury230) :
    IMercury230.consumption s = s.consumptionVal ∧
      IMercury230.consumption IMercury230.new = ConsumptionVal.zero :=
  ⟨rfl, rfl⟩

/-- C10: On a channel whose port has never been opened, `read` returns
the untouched 255-byte initialization pattern — the bytes 0, 1, ..., 254
— regardless of the environment, rather than an empty vector or an
error. -/
theorem read_unopened_returns_init_pattern (s : SerialChannel)
    (hport : s.port = none) (portRead : Except IOErr (List Nat)) :
    SerialChannel.read s portRead = Except.ok initBuffer ∧
      initBuffer.length = 255 ∧
      initBuffer = List.range 255 ∧
      ∀ i, i < 255 → initBuffer.get? i = some i := by
  refine ⟨?_, ?_, rfl, ?_⟩
  · simp [SerialChannel.read, hport]
  · simp [initBuffer]
  · intro i hi
    simp [initBuffer, List.getElem?_range hi]

/-- Witness for C10: a freshly constructed channel has no open port, and
`read` on it returns the initialization pattern. -/
theorem read_unopened_returns_init_pattern_witness :
    SerialChannel.new.port = none ∧
    (SerialChannel.read SerialChannel.new (Except.ok []) = Except.ok initBuffer ∧
      initBuffer.length = 255 ∧
      initBuffer = List.range 255 ∧
      ∀ i, i < 255 → initBuffer.get? i = some i) :=
  ⟨rfl, read_unopened_returns_init_pattern SerialChannel.new rfl (Except.ok [])⟩

end PollEngine
